import Mathlib

/-!
Verification of the OAuth error taxonomy in `src/server/auth/errors.ts`
of the TypeScript SDK: the base class `OAuthError`, its sixteen standard
subclasses with fixed `static errorCode` strings, the escape-hatch
`CustomOAuthError`, the serializer `toResponseObject`, and the registry
record `OAUTH_ERRORS`.

Modelling conventions: a JavaScript value of type `string | undefined` is
an `Option String` (`none` models `undefined`); JS truthiness of such a
value (used by `if (this.errorUri)`) is `truthy` below.  A class instance
is a record of its fields together with its constructor identity
(`ErrorClass`), since the `errorCode` getter dispatches on
`this.constructor`.
-/

/-- The sixteen standard subclasses of `OAuthError`, each of which only
sets a `static errorCode` constant (source lines 43-164). -/
inductive StdVariant where
  | InvalidRequestError
  | InvalidClientError
  | InvalidGrantError
  | UnauthorizedClientError
  | UnsupportedGrantTypeError
  | InvalidScopeError
  | AccessDeniedError
  | ServerError
  | TemporarilyUnavailableError
  | UnsupportedResponseTypeError
  | UnsupportedTokenTypeError
  | InvalidTokenError
  | MethodNotAllowedError
  | TooManyRequestsError
  | InvalidClientMetadataError
  | InsufficientScopeError
deriving DecidableEq, Repr

/-- The `static errorCode` constant assigned by each standard subclass. -/
def StdVariant.staticErrorCode : StdVariant → String
  | .InvalidRequestError => "invalid_request"
  | .InvalidClientError => "invalid_client"
  | .InvalidGrantError => "invalid_grant"
  | .UnauthorizedClientError => "unauthorized_client"
  | .UnsupportedGrantTypeError => "unsupported_grant_type"
  | .InvalidScopeError => "invalid_scope"
  | .AccessDeniedError => "access_denied"
  | .ServerError => "server_error"
  | .TemporarilyUnavailableError => "temporarily_unavailable"
  | .UnsupportedResponseTypeError => "unsupported_response_type"
  | .UnsupportedTokenTypeError => "unsupported_token_type"
  | .InvalidTokenError => "invalid_token"
  | .MethodNotAllowedError => "method_not_allowed"
  | .TooManyRequestsError => "too_many_requests"
  | .InvalidClientMetadataError => "invalid_client_metadata"
  | .InsufficientScopeError => "insufficient_scope"

/-- Constructor identity of an instance: the base class `OAuthError`
itself, one of the sixteen standard subclasses, or `CustomOAuthError`
carrying the `customErrorCode` supplied to its constructor. -/
inductive ErrorClass where
  | base
  | std (v : StdVariant)
  | custom (customErrorCode : String)
deriving DecidableEq, Repr

/-- The `errorCode` getter (source lines 33-35, overridden at lines
174-176): it reads `(this.constructor as typeof OAuthError).errorCode`.
On the base class that static field is declared (`static errorCode:
string;`) but never assigned, so the read yields `undefined`, modelled as
`none`; on a standard subclass it is the fixed constant; on
`CustomOAuthError` the overriding getter returns the code supplied at
construction, verbatim. -/
def ErrorClass.errorCode : ErrorClass → Option String
  | .base => none
  | .std v => some v.staticErrorCode
  | .custom c => some c

/-- An `OAuthError` instance: its constructor identity plus the fields
set by the constructor at source lines 9-15 (`this.message = message` via
`super(message)`, and the readonly `errorUri`). -/
structure OAuthError where
  cls : ErrorClass
  message : String
  errorUri : Option String
deriving DecidableEq, Repr

/-- Running a constructor of the hierarchy: `new C(message, errorUri?)`
for a base or standard class `C` (source lines 9-15), and
`new CustomOAuthError(code, message, errorUri?)` (lines 170-172) when
`cls` is `custom code`.  The constructor body only stores its arguments;
it is total. -/
def OAuthError.construct (cls : ErrorClass) (message : String)
    (errorUri : Option String) : OAuthError :=
  { cls := cls, message := message, errorUri := errorUri }

/-- The wire object `OAuthErrorResponse`: `error` is `Option String`
because serializing a directly-constructed base instance stores
`undefined` in the `error` field; `error_uri` is an optional key. -/
structure OAuthErrorResponse where
  error : Option String
  error_description : String
  error_uri : Option String
deriving DecidableEq, Repr

/-- JS truthiness of a `string | undefined` value: `undefined` and the
empty string are falsy, every other string is truthy. -/
def truthy : Option String → Bool
  | none => false
  | some s => s != ""

/-- The effect of `if (this.errorUri) { response.error_uri = this.errorUri; }`
(source lines 26-28): the key is set only when the stored value is truthy. -/
def truthyFilter (u : Option String) : Option String :=
  if truthy u then u else none

/-- The serializer `toResponseObject` (source lines 20-31): builds
`{ error: this.errorCode, error_description: this.message }` and adds
`error_uri` only when `this.errorUri` is truthy. -/
def OAuthError.toResponseObject (e : OAuthError) : OAuthErrorResponse :=
  { error := e.cls.errorCode
    error_description := e.message
    error_uri := truthyFilter e.errorUri }

/-- The registry record `OAUTH_ERRORS` (source lines 182-199): each key
is computed from the class's static `errorCode` field, in source order,
and maps to the class itself. -/
def OAUTH_ERRORS : List (String × StdVariant) :=
  [ (StdVariant.InvalidRequestError.staticErrorCode, .InvalidRequestError),
    (StdVariant.InvalidClientError.staticErrorCode, .InvalidClientError),
    (StdVariant.InvalidGrantError.staticErrorCode, .InvalidGrantError),
    (StdVariant.UnauthorizedClientError.staticErrorCode, .UnauthorizedClientError),
    (StdVariant.UnsupportedGrantTypeError.staticErrorCode, .UnsupportedGrantTypeError),
    (StdVariant.InvalidScopeError.staticErrorCode, .InvalidScopeError),
    (StdVariant.AccessDeniedError.staticErrorCode, .AccessDeniedError),
    (StdVariant.ServerError.staticErrorCode, .ServerError),
    (StdVariant.TemporarilyUnavailableError.staticErrorCode, .TemporarilyUnavailableError),
    (StdVariant.UnsupportedResponseTypeError.staticErrorCode, .UnsupportedResponseTypeError),
    (StdVariant.UnsupportedTokenTypeError.staticErrorCode, .UnsupportedTokenTypeError),
    (StdVariant.InvalidTokenError.staticErrorCode, .InvalidTokenError),
    (StdVariant.MethodNotAllowedError.staticErrorCode, .MethodNotAllowedError),
    (StdVariant.TooManyRequestsError.staticErrorCode, .TooManyRequestsError),
    (StdVariant.InvalidClientMetadataError.staticErrorCode, .InvalidClientMetadataError),
    (StdVariant.InsufficientScopeError.staticErrorCode, .InsufficientScopeError) ]

/-- All sixteen standard variants, in source declaration order. -/
def allStdVariants : List StdVariant :=
  [ .InvalidRequestError, .InvalidClientError, .InvalidGrantError,
    .UnauthorizedClientError, .UnsupportedGrantTypeError, .InvalidScopeError,
    .AccessDeniedError, .ServerError, .TemporarilyUnavailableError,
    .UnsupportedResponseTypeError, .UnsupportedTokenTypeError,
    .InvalidTokenError, .MethodNotAllowedError, .TooManyRequestsError,
    .InvalidClientMetadataError, .InsufficientScopeError ]

/-- The sixteen standard code strings. -/
def standardCodes : List String :=
  allStdVariants.map StdVariant.staticErrorCode

/-- Modelled from the spec: the Registry operation
`lookup(code) -> variant-constructor or absent` (spec section 4.4).  The
registry table `OAUTH_ERRORS` is in the source; the lookup operation over
it is described only by the spec, as plain key lookup in the table. -/
def lookup (code : String) : Option StdVariant :=
  (OAUTH_ERRORS.find? (fun p => p.1 == code)).map Prod.snd

/-- Modelled from the spec: the parsing flow of spec section 4.4 — given
a wire object, pass its `error` field to `lookup`; on a hit, reconstruct
the standard variant from the response's `error_description` and
`error_uri`; on a miss (or a non-string `error` field) report absence. -/
def reconstructFrom (r : OAuthErrorResponse) : Option OAuthError :=
  match r.error with
  | some c => (lookup c).map
      (fun v => OAuthError.construct (.std v) r.error_description r.error_uri)
  | none => none

/-- Well-formedness of a wire object in the sense of spec section 7: the
`error` field holds an actual string (the other two fields are a string
and an optional string by construction of the record type). -/
def OAuthErrorResponse.wellFormed (r : OAuthErrorResponse) : Bool :=
  r.error.isSome

/-- A call of the `errorCode` getter modelled as a state transformer:
the result paired with the instance state after the call.  The getter
body (source lines 33-35) only reads `this.constructor`; it assigns no
field, so the outgoing state is the incoming record. -/
def OAuthError.callErrorCode (e : OAuthError) : Option String × OAuthError :=
  (e.cls.errorCode, e)

/-- A call of `toResponseObject` modelled as a state transformer.  Its
body (source lines 20-31) reads `this.errorCode`, `this.message` and
`this.errorUri` and mutates only the local `response` object, never a
field of `this`. -/
def OAuthError.callToResponseObject (e : OAuthError) :
    OAuthErrorResponse × OAuthError :=
  (e.toResponseObject, e)

/-- Helper: the key column of the registry record is exactly the list of
standard codes. -/
theorem OAUTH_ERRORS_keys : OAUTH_ERRORS.map Prod.fst = standardCodes := rfl

/-- Helper: the value column of the registry record is exactly the list
of standard variants, in the same order. -/
theorem OAUTH_ERRORS_values : OAUTH_ERRORS.map Prod.snd = allStdVariants := rfl

/-- Helper: looking up a standard variant's own code finds that variant. -/
theorem lookup_staticErrorCode (v : StdVariant) :
    lookup v.staticErrorCode = some v := by
  cases v <;> decide

/-- Helper: applying the truthiness filter twice is the same as applying
it once. -/
theorem truthyFilter_idem (u : Option String) :
    truthyFilter (truthyFilter u) = truthyFilter u := by
  cases u with
  | none => rfl
  | some s =>
      by_cases h : s = "" <;> simp [truthyFilter, truthy, h]

/-- C1: for every standard variant, every message and every optional uri,
serializing the constructed condition yields a response whose `error`
field holds the variant's fixed code constant and whose
`error_description` field equals the message exactly. -/
theorem std_serialize_code_and_description (v : StdVariant) (m : String)
    (u : Option String) :
    ((OAuthError.construct (.std v) m u).toResponseObject).error
        = some v.staticErrorCode ∧
    ((OAuthError.construct (.std v) m u).toResponseObject).error_description
        = m :=
  ⟨rfl, rfl⟩

/-- C2: serializing a standard condition, looking up the resulting
`error` field in the registry, reconstructing the found variant from the
response's `error_description` and `error_uri`, and serializing again
yields a wire object equal to the original serialized object. -/
theorem roundtrip_serialize_lookup_reconstruct (v : StdVariant) (m : String)
    (u : Option String) :
    (reconstructFrom ((OAuthError.construct (.std v) m u).toResponseObject)).map
        OAuthError.toResponseObject
      = some ((OAuthError.construct (.std v) m u).toResponseObject) := by
  simp only [OAuthError.construct, OAuthError.toResponseObject, ErrorClass.errorCode,
    reconstructFrom, lookup_staticErrorCode, Option.map_some', truthyFilter_idem]

/-- C3: for every one of the sixteen standard variants, registry lookup
of its fixed code is present and returns that variant, and constructing
it from any message yields a condition whose `errorCode` getter returns
that fixed code. -/
theorem lookup_std_present_and_code (v : StdVariant) (m : String) :
    lookup v.staticErrorCode = some v ∧
    (OAuthError.construct (.std v) m none).cls.errorCode
        = some v.staticErrorCode :=
  ⟨lookup_staticErrorCode v, rfl⟩

/-- C4: for every string that is not one of the sixteen standard codes,
registry lookup yields `none` (an explicit not-found outcome; `lookup` is
a total function, so it cannot throw or crash). -/
theorem lookup_absent_for_nonstandard (c : String) (h : c ∉ standardCodes) :
    lookup c = none := by
  unfold lookup
  rw [Option.map_eq_none', List.find?_eq_none]
  intro p hp
  simp only [beq_iff_eq]
  intro he
  exact h (he ▸ (OAUTH_ERRORS_keys ▸ List.mem_map_of_mem Prod.fst hp))

/-- Witness for C4: the unknown code "foo_bar" is not found. -/
theorem lookup_absent_for_nonstandard_witness : lookup "foo_bar" = none :=
  lookup_absent_for_nonstandard "foo_bar" (by decide)

/-- C5 counterexample: the empty string is a uri argument that was
supplied at construction, yet the serialized response has no `error_uri`
key (the serializer checks JS truthiness, and `""` is falsy), so the
serialized `error_uri` does not equal the supplied uri. -/
theorem uri_empty_string_dropped :
    ((OAuthError.construct (.std .InvalidRequestError) "msg"
        (some "")).toResponseObject).error_uri = none ∧
    ((OAuthError.construct (.std .InvalidRequestError) "msg"
        (some "")).toResponseObject).error_uri ≠ some "" := by
  exact ⟨rfl, by decide⟩

/-- C5 amended: for every condition, the serialized response contains an
`error_uri` key if and only if a truthy (non-empty) uri was supplied at
construction; a supplied non-empty uri is serialized exactly, and when
the uri is omitted, or supplied as the empty string, the key is entirely
absent. -/
theorem uri_present_iff_truthy_supplied (cls : ErrorClass) (m : String) :
    (∀ u : String, u ≠ "" →
        ((OAuthError.construct cls m (some u)).toResponseObject).error_uri
          = some u) ∧
    ((OAuthError.construct cls m none).toResponseObject).error_uri = none ∧
    ((OAuthError.construct cls m (some "")).toResponseObject).error_uri
        = none := by
  refine ⟨fun u hu => ?_, rfl, rfl⟩
  simp [OAuthError.construct, OAuthError.toResponseObject, truthyFilter,
    truthy, hu]

/-- Witness for C5 amended, at the custom class with code "x", message
"msg" and uri "https://e.example". -/
theorem uri_present_iff_truthy_supplied_witness :
    ((OAuthError.construct (.custom "x") "msg"
        (some "https://e.example")).toResponseObject).error_uri
      = some "https://e.example" ∧
    ((OAuthError.construct (.custom "x") "msg" none).toResponseObject).error_uri
      = none ∧
    ((OAuthError.construct (.custom "x") "msg"
        (some "")).toResponseObject).error_uri = none :=
  ⟨(uri_present_iff_truthy_supplied (.custom "x") "msg").1
      "https://e.example" (by decide),
    (uri_present_iff_truthy_supplied (.custom "x") "msg").2.1,
    (uri_present_iff_truthy_supplied (.custom "x") "msg").2.2⟩

/-- C6: the sixteen standard code strings are pairwise distinct (the
code list has no duplicate and length 16), and the registry is bijective
over the standard set: its key column is exactly the sixteen standard
codes, each appearing exactly once, with no other key present, and its
value column enumerates every standard variant exactly once. -/
theorem registry_bijective_over_standard_set :
    standardCodes.Nodup ∧ standardCodes.length = 16 ∧
    OAUTH_ERRORS.map Prod.fst = standardCodes ∧
    OAUTH_ERRORS.map Prod.snd = allStdVariants ∧
    allStdVariants.Nodup ∧ ∀ v : StdVariant, v ∈ allStdVariants := by
  refine ⟨by decide, rfl, rfl, rfl, by decide, fun v => ?_⟩
  cases v <;> decide

/-- C7: for every string c, message m and optional uri u, a
`CustomOAuthError` constructed from them has an `errorCode` getter
returning c verbatim, and its serialized response's `error` field holds
c. -/
theorem custom_code_verbatim (c m : String) (u : Option String) :
    (OAuthError.construct (.custom c) m u).cls.errorCode = some c ∧
    ((OAuthError.construct (.custom c) m u).toResponseObject).error = some c :=
  ⟨rfl, rfl⟩

/-- C8: construction from a string message is a total function (it
cannot fail), and every condition built from a standard or custom class
serializes to a well-formed response: the `error` field holds a string
(the `error_description` field is a string, and `error_uri` an optional
string, by the type of the wire record). -/
theorem serialization_always_wellformed (m : String) (u : Option String) :
    (∀ v : StdVariant,
        ((OAuthError.construct (.std v) m u).toResponseObject).wellFormed
          = true) ∧
    (∀ c : String,
        ((OAuthError.construct (.custom c) m u).toResponseObject).wellFormed
          = true) :=
  ⟨fun _ => rfl, fun _ => rfl⟩

/-- C9: method calls on a condition are pure: calling the `errorCode`
getter or `toResponseObject` leaves the instance state (class, message,
uri) unchanged, and a repeated call on the post-call state returns a
result equal to the first. -/
theorem method_calls_pure (e : OAuthError) :
    e.callErrorCode.2 = e ∧
    e.callToResponseObject.2 = e ∧
    (e.callErrorCode.2).callErrorCode.1 = e.callErrorCode.1 ∧
    (e.callToResponseObject.2).callToResponseObject.1
      = e.callToResponseObject.1 :=
  ⟨rfl, rfl, rfl, rfl⟩

/-- C10: constructing the base class `OAuthError` directly yields a
condition whose `errorCode` getter returns `undefined` (the static field
is declared but never assigned), so its serialized response's `error`
field is not a string: it is `none`. -/
theorem base_class_code_undefined (m : String) (u : Option String) :
    (OAuthError.construct .base m u).cls.errorCode = none ∧
    ((OAuthError.construct .base m u).toResponseObject).error = none ∧
    ¬ ((OAuthError.construct .base m u).toResponseObject).wellFormed = true :=
  ⟨rfl, rfl, fun h => by simp [OAuthError.construct, OAuthError.toResponseObject,
    ErrorClass.errorCode, OAuthErrorResponse.wellFormed] at h⟩
